import Mathlib

/-!
Verification development for the cursor-stats usage-accounting engine.

The definitions below are a shallow embedding of the TypeScript source:

* `updateStats` and the API module (`fetchCursorStats`, `fetchMonthData`)
  from the extension's stats/api code;
* `checkTeamMembership` from `src/services/team.ts`.

Modelling conventions:

* Money is represented exactly as `Rat` (the source stores dollar amounts
  as decimal strings such as `"$9.94"` and re-parses them with
  `parseFloat`; the decimal values are represented directly).
* Timestamps are represented at day granularity by `SimpleDate`
  (year, zero-based month as in JS `Date.getMonth`, day of month);
  time-of-day is abstracted away, so `dateLt` is the lexicographic order.
* Network collaborators (axios calls) are oracles passed in as
  `Except Unit` values or functions; a thrown error is `Except.error ()`.
* Invoice item description strings are assumed to contain no newline
  characters, matching the shape of real invoice lines; under that
  assumption the JS regex behaviour used by the source is reproduced
  exactly by the character-list functions below.
-/

set_option autoImplicit false

namespace CursorStats

/-! ## String utilities (JS `String.prototype` behaviour) -/

/-- Character-list contiguous containment: `charsContain sub s` is true iff
`sub` occurs as a contiguous run inside `s` (JS `String.includes`). -/
def charsContain (sub : List Char) : List Char → Bool
  | [] => sub.isEmpty
  | c :: t => sub.isPrefixOf (c :: t) || charsContain sub t

/-- JS `s.includes(sub)`. -/
def jsIncludes (s sub : String) : Bool :=
  charsContain sub.toList s.toList

/-- JS `s.toLowerCase()` (ASCII range, which covers every marker string the
source compares against). -/
def jsToLower (s : String) : String :=
  String.mk (s.toList.map Char.toLower)

/-- Numeric value of a digit run, as JS `parseInt` computes it on a string
of decimal digits. -/
def digitsToNat (ds : List Char) : Nat :=
  ds.foldl (fun a c => a * 10 + (c.toNat - '0'.toNat)) 0

/-- The maximal leading decimal-digit run of a description. -/
def leadingDigits (s : String) : List Char :=
  s.toList.takeWhile Char.isDigit

/-- The request count a JS regex `^(\d+)` extracts from a description:
`none` when the description does not start with a digit. -/
def lineRequestCount (s : String) : Option Nat :=
  let ds := leadingDigits s
  if ds.isEmpty then none else some (digitsToNat ds)

/-- JS `\s` on the characters that can occur in invoice descriptions. -/
def jsIsSpace (c : Char) : Bool :=
  c = ' ' || c = '\t' || c = '\n' || c = '\r'

/-- A character of the JS class `[\w.-]` (word characters plus dot and
hyphen), as used by the token-based model-name capture. -/
def isWordDotDash (c : Char) : Bool :=
  (c.isAlpha && c.toNat < 128) || c.isDigit || c = '_' || c = '.' || c = '-'

/-! ## Date model (JS `Date` month arithmetic at day granularity) -/

/-- A calendar date: `month` is zero-based as in JS `Date.getMonth()`. -/
structure SimpleDate where
  year : Int
  month : Int
  day : Nat
  deriving DecidableEq, Repr

/-- Gregorian leap-year rule. -/
def isLeapYear (y : Int) : Bool :=
  y % 4 = 0 && (y % 100 ≠ 0 || y % 400 = 0)

/-- Days in month `m` (zero-based) of year `y`. -/
def daysInMonth (y m : Int) : Nat :=
  if m = 1 then (if isLeapYear y then 29 else 28)
  else if m = 3 || m = 5 || m = 8 || m = 10 then 30
  else 31

/-- JS `Date.prototype.setMonth(m)` at day granularity: the month index is
normalised with year carry (floor semantics, as JS does for any integer
argument), and when the held day-of-month exceeds the length of the target
month, JS rolls the excess days forward into the following month. -/
def jsSetMonth (d : SimpleDate) (m : Int) : SimpleDate :=
  let y := d.year + Int.ediv m 12
  let m0 := Int.emod m 12
  let dim := daysInMonth y m0
  if d.day ≤ dim then ⟨y, m0, d.day⟩
  else if m0 = 11 then ⟨y + 1, 0, d.day - dim⟩
  else ⟨y, m0 + 1, d.day - dim⟩

/-- JS `Date.prototype.setFullYear(y)` at day granularity, including the
day-overflow normalisation (e.g. Feb 29 moved to a non-leap year becomes
Mar 1). -/
def jsSetFullYear (d : SimpleDate) (y : Int) : SimpleDate :=
  let dim := daysInMonth y d.month
  if d.day ≤ dim then ⟨y, d.month, d.day⟩
  else if d.month = 11 then ⟨y + 1, 0, d.day - dim⟩
  else ⟨y, d.month + 1, d.day - dim⟩

/-- Lexicographic order on dates; this is JS `Date` comparison under the
convention that both operands carry the same time-of-day. -/
def dateLt (a b : SimpleDate) : Bool :=
  a.year < b.year ||
    (a.year = b.year &&
      (a.month < b.month || (a.month = b.month && a.day < b.day)))

/-- The billing-period start the source computes in `fetchCursorStats`
(api.ts): months since subscription start, then `setMonth`/`setFullYear`
with JS rollover semantics, then one month back when `now` is still before
the tentative start. -/
def currentPeriodStartJS (start now : SimpleDate) : SimpleDate :=
  let monthsSinceStart : Int :=
    (now.year - start.year) * 12 + (now.month - start.month)
  let c1 := jsSetMonth start (start.month + monthsSinceStart)
  let c2 := jsSetFullYear c1
    (start.year + Int.ediv (start.month + monthsSinceStart) 12)
  if dateLt now c2 then jsSetMonth c2 (c2.month - 1) else c2

/-- The previous billing-period start the source computes: the current
period start shifted one month back with `setMonth`. -/
def previousPeriodStartJS (cur : SimpleDate) : SimpleDate :=
  jsSetMonth cur (cur.month - 1)

/-- Modelled from the spec: shifting a subscription anchor forward by `k`
whole months preserving its day-of-month, clamping to the last day of the
target month when that month is shorter (the spec explicitly forbids the
host library's rollover). -/
def clampShiftMonths (start : SimpleDate) (k : Int) : SimpleDate :=
  let y := start.year + Int.ediv (start.month + k) 12
  let m0 := Int.emod (start.month + k) 12
  ⟨y, m0, min start.day (daysInMonth y m0)⟩

/-- Modelled from the spec: the billing-period start mandated by the spec's
`BillingPeriodCalculator` — clamped month shift by `monthsSinceStart`, and
one fewer month when `now` is before the tentative start. -/
def specCurrentPeriodStart (start now : SimpleDate) : SimpleDate :=
  let k : Int := (now.year - start.year) * 12 + (now.month - start.month)
  let tentative := clampShiftMonths start k
  if dateLt now tentative then clampShiftMonths start (k - 1) else tentative

/-! ## Invoice line parsing (`fetchMonthData` in api.ts)

The source turns each raw invoice item into either a synthetic mid-month
running-total line, a structured usage item, or nothing.  The emitted
objects carry a display `calculation` string and a `totalDollars` string;
both are built from the numbers parsed below (`requestCount`, `cents`,
the running mid-month total), so the embedding stores those numbers and
derives the dollar values as exact rationals.  The two classification
sub-matchers whose results no claim depends on — the closed known-model
regex (`genericModelPattern`) and the "extra fast premium requests (…)"
parenthesis capture — are passed in as oracle functions returning the
captured group, so every theorem below holds for the real regexes. -/

/-- One raw invoice line from the monthly-invoice payload: free-text
description plus an optional integer cent amount (`cents` missing or
`undefined` are both `none`). -/
structure RawInvoiceItem where
  description : String
  cents : Option Int
  deriving Repr, DecidableEq

/-- An entry of the `usageItems` array built by `fetchMonthData`: either
the synthetic running-total line pushed for a mid-month payment, or a
parsed usage item.  The parsed usage item corresponds to the spec's
`ParsedUsageItem`; the synthetic line carries no model name and no
discount flag in the source. -/
inductive InvoiceItem where
  | midMonthLine (runningTotal : Rat) (description : String)
  | usage (requestCount : Nat) (cents : Int) (description : String)
      (modelName : String) (isDiscounted : Bool)
  deriving Repr, DecidableEq

/-- The dollar amount `updateStats` recovers by stripping the dollar sign
from `item.totalDollars` and applying `parseFloat`: `cents / 100` for a
usage item, minus the running total for the synthetic mid-month line. -/
def InvoiceItem.totalDollars : InvoiceItem → Rat
  | .midMonthLine t _ => -t
  | .usage _ c _ _ _ => (c : Rat) / 100

/-- The per-request cost in cents the source derives for a usage item
(`cents / requestCount`); zero for the synthetic mid-month line. -/
def InvoiceItem.costPerRequestCents : InvoiceItem → Rat
  | .midMonthLine _ _ => 0
  | .usage rc c _ _ _ => (c : Rat) / (rc : Rat)

/-- Whether an entry is a parsed usage item (the spec's
`ParsedUsageItem`), as opposed to the synthetic mid-month line. -/
def InvoiceItem.isUsage : InvoiceItem → Bool
  | .midMonthLine _ _ => false
  | .usage _ _ _ _ _ => true

/-- The i18n unknown-model sentinel.  `updateStats` compares
`item.modelNameForTooltip === "unknown-model"`, which pins the value the
translation table assigns to the key the API module uses. -/
def unknownModelSentinel : String := "unknown-model"

/-- The i18n tool-call sentinel (key `api.toolCalls`), kept opaque. -/
def toolCallsSentinel : String := "api.toolCalls"

/-- The i18n fast-premium sentinel (key `api.fastPremium`), kept opaque. -/
def fastPremiumSentinel : String := "api.fastPremium"

/-- The anchored JS regex
`^(\d+) token-based usage calls to ([\w.-]+), totalling: \$[\d.]+`
from `fetchMonthData`: returns the leading request count and the captured
model name on success.  The greedy `[\w.-]+` always ends at the first
character outside the class, and the following literal starts with `,`
which is outside the class, so no backtracking case arises. -/
def tokenBasedMatch (s : String) : Option (Nat × String) :=
  let cs := s.toList
  let ds := cs.takeWhile Char.isDigit
  if ds.isEmpty then none
  else
    let rest := cs.drop ds.length
    let lit1 := " token-based usage calls to ".toList
    if lit1.isPrefixOf rest then
      let rest2 := rest.drop lit1.length
      let word := rest2.takeWhile isWordDotDash
      if word.isEmpty then none
      else
        let rest3 := rest2.drop word.length
        let lit2 := ", totalling: $".toList
        if lit2.isPrefixOf rest3 then
          let rest4 := rest3.drop lit2.length
          if (rest4.takeWhile (fun c => c.isDigit || c = '.')).isEmpty then none
          else some (digitsToNat ds, String.mk word)
        else none
    else none

/-- Success of the JS regex
`^(\d+)\s+(.+?)(?: request| calls)?(?: beyond|\*| per|$)/i`
on a newline-free description.  The lazy tail can always be closed by `$`
with both optional groups empty, so the regex matches exactly when a
leading digit run is followed by at least one whitespace character and at
least one further character.  (The lazily captured group is computed by
the source but never used, so only success matters.) -/
def originalMatchSucceeds (s : String) : Bool :=
  let cs := s.toList
  let ds := cs.takeWhile Char.isDigit
  if ds.isEmpty then false
  else
    match cs.drop ds.length with
    | [] => false
    | c :: rest2 => jsIsSpace c && !rest2.isEmpty

/-- The model-name classification of the original-format branch of
`fetchMonthData`, with the two sub-matchers as oracles:
`genericModelMatch d` is the first capture group of the known-model regex
on `d` (or `none` when it does not match), `extraFastCapture d` the
parenthesised capture of `extra fast premium requests? \(([^)]+)\)/i`. -/
def classifyOriginalModel (genericModelMatch : String → Option String)
    (extraFastCapture : String → Option String) (d : String) : String :=
  if jsIncludes d "tool calls" then toolCallsSentinel
  else
    match genericModelMatch d with
    | some m => m
    | none =>
      if jsIncludes d "extra fast premium request" then
        match extraFastCapture d with
        | some m => m
        | none => fastPremiumSentinel
      else unknownModelSentinel

/-- One iteration of the item loop in `fetchMonthData`: given the running
mid-month total, produce the list of entries pushed for this raw item
(empty when the item is skipped) and the updated running total. -/
def processLine (genericModelMatch extraFastCapture : String → Option String)
    (midSoFar : Rat) (item : RawInvoiceItem) : List InvoiceItem × Rat :=
  match item.cents with
  | none => ([], midSoFar)
  | some cents =>
    if jsIncludes item.description "Mid-month usage paid" then
      let mid := midSoFar + (Int.natAbs cents : Rat) / 100
      ([.midMonthLine mid item.description], mid)
    else
      let parsed : Option (Nat × String) :=
        match tokenBasedMatch item.description with
        | some (rc, model) => some (rc, model)
        | none =>
          if originalMatchSucceeds item.description then
            some (digitsToNat (leadingDigits item.description),
              classifyOriginalModel genericModelMatch extraFastCapture
                item.description)
          else
            match lineRequestCount item.description with
            | some rc => some (rc, unknownModelSentinel)
            | none => none
      match parsed with
      | none => ([], midSoFar)
      | some (rc, model) =>
        if rc = 0 then ([], midSoFar)
        else
          ([.usage rc cents item.description model
              (jsIncludes (jsToLower item.description) "discounted")],
            midSoFar)

/-- One fold step of the item loop: append the entries this raw item
emits and carry the updated mid-month total. -/
def invoiceFoldStep (genericModelMatch extraFastCapture :
    String → Option String) (acc : List InvoiceItem × Rat)
    (item : RawInvoiceItem) : List InvoiceItem × Rat :=
  let step := processLine genericModelMatch extraFastCapture acc.2 item
  (acc.1 ++ step.1, step.2)

/-- The item loop of `fetchMonthData` over a whole invoice payload:
the emitted `usageItems` list and the final `midMonthPayment` total. -/
def processInvoiceItems (genericModelMatch extraFastCapture :
    String → Option String) (raw : List RawInvoiceItem) :
    List InvoiceItem × Rat :=
  raw.foldl (invoiceFoldStep genericModelMatch extraFastCapture) ([], 0)

/-- The month payload `fetchMonthData` returns. -/
structure MonthDataM where
  items : List InvoiceItem
  hasUnpaidMidMonthInvoice : Bool
  midMonthPayment : Rat
  deriving Repr, DecidableEq

/-- `fetchMonthData`'s successful result, assembled from the parsed items
and the payload's pass-through `hasUnpaidMidMonthInvoice` flag. -/
def fetchMonthDataModel (genericModelMatch extraFastCapture :
    String → Option String) (raw : List RawInvoiceItem)
    (hasUnpaid : Bool) : MonthDataM :=
  let p := processInvoiceItems genericModelMatch extraFastCapture raw
  ⟨p.1, hasUnpaid, p.2⟩

/-! ## Snapshot computation (`fetchCursorStats` in api.ts)

Collaborator calls are oracles: `Except.error ()` models a thrown
request.  The monthly-invoice fetch is an oracle keyed by the one-based
month and the year, because `fetchCursorStats` wraps each of its two
calls in a try/catch that degrades a failure to empty month data. -/

/-- JS truthiness of an optional number (`undefined` and `0` are falsy). -/
def jsTruthyNat (o : Option Nat) : Bool :=
  o.getD 0 ≠ 0

/-- JS `a || b` for an optional count `a` and a number `b`
(`undefined` and `0` both fall through to `b`). -/
def jsOrNat (o : Option Nat) (b : Nat) : Nat :=
  if jsTruthyNat o then o.getD 0 else b

/-- The primary premium-model entry of the individual usage payload. -/
structure Gpt4Usage where
  numRequests : Nat
  maxRequestUsage : Option Nat
  numTokens : Nat
  deriving Repr, DecidableEq

/-- The individual usage payload (`/api/usage`): the engine reads the
designated primary entry and the subscription start timestamp. -/
structure CursorUsageResponseM where
  gpt4 : Gpt4Usage
  startOfMonth : SimpleDate
  deriving Repr, DecidableEq

/-- The result `checkTeamMembership` resolves to, as consumed by
`fetchCursorStats`. -/
structure TeamInfoM where
  isTeamMember : Bool
  teamId : Option Nat
  userId : Option Nat
  startOfMonth : SimpleDate
  deriving Repr, DecidableEq

/-- One member entry of the team-spend payload. -/
structure TeamMemberSpendM where
  userId : Nat
  name : String
  email : String
  role : String
  spendCents : Option Int
  fastPremiumRequests : Option Nat
  hardLimitOverrideDollars : Option Rat
  deriving Repr, DecidableEq

/-- The team-spend payload (`get-team-spend`). -/
structure TeamSpendResponseM where
  teamMemberSpend : List TeamMemberSpendM
  totalMembers : Nat
  deriving Repr, DecidableEq

/-- The object `extractUserSpend` returns: the member's identity fields,
the hard-limit override and `fastPremiumRequests || 0`.  The source's
return object carries **no** `spendCents` property, even though the found
payload entry has one. -/
structure UserSpendExtract where
  userId : Nat
  name : String
  email : String
  role : String
  hardLimitOverrideDollars : Option Rat
  fastPremiumRequests : Nat
  deriving Repr, DecidableEq

/-- `extractUserSpend` from team.ts: find the member entry for the
resolved team-user id (a missing entry throws, modelled as `none`) and
return the reduced object. -/
def extractUserSpend (teamSpend : TeamSpendResponseM) (userId : Nat) :
    Option UserSpendExtract :=
  (teamSpend.teamMemberSpend.find? (fun m => m.userId = userId)).map
    (fun m =>
      ⟨m.userId, m.name, m.email, m.role, m.hardLimitOverrideDollars,
        m.fastPremiumRequests.getD 0⟩)

/-- The JS property read `userSpend.spendCents` performed by
`fetchCursorStats` on the extracted object: the object has no
`spendCents` property, so the read is always `undefined`. -/
def UserSpendExtract.spendCentsRead : UserSpendExtract → Option Int :=
  fun _ => none

/-- The premium-request counter carried in a snapshot.  The limit is kept
optional because the individual fallback path stores `maxRequestUsage`
verbatim, which may be absent. -/
structure PremiumRequestsM where
  current : Nat
  limit : Option Nat
  startOfMonth : SimpleDate
  deriving Repr, DecidableEq

/-- One month block of a snapshot (`month` is one-based, as the source
stores `getMonth() + 1`). -/
structure MonthlyStatsM where
  month : Int
  year : Int
  usageBasedPricing : MonthDataM
  deriving Repr, DecidableEq

/-- The snapshot `fetchCursorStats` returns. -/
structure CursorStatsM where
  currentMonth : MonthlyStatsM
  lastMonth : MonthlyStatsM
  premiumRequests : PremiumRequestsM
  isTeamSpendData : Bool
  teamId : Option Nat
  teamSpendCents : Option Int
  deriving Repr, DecidableEq

/-- The team branch of `fetchCursorStats`: when the user is a team member
with truthy team and user ids, try team spend, the member extraction and
the individual usage fetch; any failure is caught and surrendered to the
individual fallback (`none`).  On success the premium counter uses the
individual primary-model entry (with the `|| 500` limit default) and the
spend cents are `userSpend.spendCents || 0` — a read of a property the
extracted object never carries, so the stored value is always zero. -/
def teamAttempt (teamInfo : TeamInfoM)
    (teamSpendR : Except Unit TeamSpendResponseM)
    (usageR : Except Unit CursorUsageResponseM) :
    Option (PremiumRequestsM × Int) :=
  if teamInfo.isTeamMember && jsTruthyNat teamInfo.teamId
      && jsTruthyNat teamInfo.userId then
    match teamSpendR with
    | .error _ => none
    | .ok ts =>
      match extractUserSpend ts (teamInfo.userId.getD 0) with
      | none => none
      | some us =>
        match usageR with
        | .error _ => none
        | .ok iu =>
          some
            (⟨iu.gpt4.numRequests,
              some (jsOrNat iu.gpt4.maxRequestUsage 500),
              teamInfo.startOfMonth⟩,
             us.spendCentsRead.getD 0)
  else none

/-- Empty month data, the degraded value `fetchCursorStats` substitutes
when a monthly-invoice fetch throws. -/
def emptyMonthData : MonthDataM := ⟨[], false, 0⟩

/-- The tail of `fetchCursorStats` shared by the team and individual
paths: billing periods are derived from the premium counter's
subscription start with the JS month arithmetic, each monthly-invoice
fetch degrades to empty data on error, and the snapshot is assembled.
`isTeamSpendData` and the exported `teamSpendCents` both come from the
same team-branch success, represented here by `teamSpendCents` being
`some`. -/
def buildStats (now : SimpleDate) (teamId : Option Nat)
    (premiumRequests : PremiumRequestsM) (teamSpendCents : Option Int)
    (monthR : Int → Int → Except Unit MonthDataM) : CursorStatsM :=
  let currentPeriodStart :=
    currentPeriodStartJS premiumRequests.startOfMonth now
  let previousPeriodStart := previousPeriodStartJS currentPeriodStart
  let currentMonthData :=
    match monthR (currentPeriodStart.month + 1) currentPeriodStart.year with
    | .ok d => d
    | .error _ => emptyMonthData
  let lastMonthData :=
    match monthR (previousPeriodStart.month + 1) previousPeriodStart.year with
    | .ok d => d
    | .error _ => emptyMonthData
  { currentMonth :=
      ⟨currentPeriodStart.month + 1, currentPeriodStart.year,
        currentMonthData⟩
    lastMonth :=
      ⟨previousPeriodStart.month + 1, previousPeriodStart.year,
        lastMonthData⟩
    premiumRequests := premiumRequests
    isTeamSpendData := teamSpendCents.isSome
    teamId := teamId
    teamSpendCents := teamSpendCents }

/-- `fetchCursorStats`: team membership is resolved first (a failure
propagates out of the function — its own catch block re-throws); the team
branch falls back to the individual usage API, whose failure is then
fatal; the snapshot is assembled by `buildStats`. -/
def fetchCursorStats (now : SimpleDate)
    (teamInfoR : Except Unit TeamInfoM)
    (teamSpendR : Except Unit TeamSpendResponseM)
    (usageR : Except Unit CursorUsageResponseM)
    (monthR : Int → Int → Except Unit MonthDataM) :
    Except Unit CursorStatsM :=
  match teamInfoR with
  | .error e => .error e
  | .ok teamInfo =>
    match teamAttempt teamInfo teamSpendR usageR with
    | some (pr, cents) =>
      .ok (buildStats now teamInfo.teamId pr (some cents) monthR)
    | none =>
      match usageR with
      | .error e => .error e
      | .ok iu =>
        .ok (buildStats now teamInfo.teamId
          ⟨iu.gpt4.numRequests, iu.gpt4.maxRequestUsage, iu.startOfMonth⟩
          none monthR)

/-! ## Snapshot consumption (`updateStats` in stats.ts) -/

/-- The active-month selection of `updateStats`: the current month when it
has invoice items or team spend is in effect, otherwise the last month. -/
def activeMonthData (stats : CursorStatsM) : MonthlyStatsM :=
  if stats.currentMonth.usageBasedPricing.items.length > 0
      || (stats.isTeamSpendData && stats.teamSpendCents.isSome)
  then stats.currentMonth else stats.lastMonth

/-- Whether `updateStats` runs in team-spend mode. -/
def useTeamSpendData (stats : CursorStatsM) : Bool :=
  stats.isTeamSpendData && stats.teamSpendCents.isSome

/-- The positive-cost reduction of `updateStats`: sum the dollar values of
the items whose cost is positive (credits and the synthetic mid-month
line are excluded by the sign test). -/
def sumPositiveCosts (items : List InvoiceItem) : Rat :=
  items.foldl
    (fun sum it =>
      if 0 < it.totalDollars then sum + it.totalDollars else sum) 0

/-- The positive-cost sum restricted to parsed usage items; used to state
that the synthetic mid-month lines never contribute to the total. -/
def sumPositiveUsageCosts (items : List InvoiceItem) : Rat :=
  items.foldl
    (fun sum it =>
      if it.isUsage && decide (0 < it.totalDollars)
      then sum + it.totalDollars else sum) 0

/-- `actualTotalCost` as `updateStats` computes it: team spend in cents
over 100 when team-spend mode is on, otherwise the positive-cost sum of
the active month's items when there are any, otherwise zero. -/
def actualTotalCost (stats : CursorStatsM) : Rat :=
  if useTeamSpendData stats then
    ((stats.teamSpendCents.getD 0 : Int) : Rat) / 100
  else if (activeMonthData stats).usageBasedPricing.items.length > 0 then
    sumPositiveCosts (activeMonthData stats).usageBasedPricing.items
  else 0

/-- The unpaid amount of `updateStats`: zero in team-spend mode, otherwise
the total cost minus the active month's mid-month payment, floored at
zero. -/
def unpaidAmount (stats : CursorStatsM) : Rat :=
  if useTeamSpendData stats then 0
  else
    max 0 (actualTotalCost stats
      - (activeMonthData stats).usageBasedPricing.midMonthPayment)

/-! ## Unknown-model accumulator (`updateStats` in stats.ts)

The module-level mutable set `detectedUnknownModels` and the one-shot
boolean `unknownModelNotificationShown` are modelled as explicit state:
the set as a list in insertion order (JS `Set` iteration order), the
latch as a `Bool` threaded through refresh cycles. -/

/-- The fixed denylist of generic words the detector rejects. -/
def veryGenericKeywords : List String :=
  ["usage", "calls", "request", "requests", "cents", "beyond", "month",
   "day", "january", "february", "march", "april", "may", "june", "july",
   "august", "september", "october", "november", "december", "premium",
   "extra", "tool", "fast", "thinking"]

/-- The guarded insertion of an extracted term into
`detectedUnknownModels`: the term must be non-empty, longer than one
character and not one of the noise words, and it is dropped when an
already-recorded term contains it or is contained in it
case-insensitively. -/
def recordUnknownModel (detected : List String) (term : String) :
    List String :=
  if term ≠ "" && term.length > 1
      && jsToLower term ≠ "token-based" && jsToLower term ≠ "discounted"
      && !veryGenericKeywords.contains (jsToLower term) then
    if detected.any (fun d =>
        jsIncludes (jsToLower d) (jsToLower term)
          || jsIncludes (jsToLower term) (jsToLower d)) then
      detected
    else detected ++ [term]
  else detected

/-- The notification step at the end of one `updateStats` cycle: the
aggregate report fires only when the latch is still unset and the set is
non-empty, and firing sets the latch.  Returns whether the report was
surfaced this cycle and the new latch value. -/
def notifyStep (shown : Bool) (detected : List String) : Bool × Bool :=
  if !shown && detected.length > 0 then (true, true) else (false, shown)

/-- The number of times the aggregate unknown-model report is surfaced
over a sequence of refresh cycles, where `detectedPerCycle` gives the
accumulated set visible at the end of each cycle. -/
def countNotifications (shown : Bool) : List (List String) → Nat
  | [] => 0
  | d :: rest =>
    let step := notifyStep shown d
    (if step.1 then 1 else 0) + countNotifications step.2 rest

/-! ## Team-membership cache (`checkTeamMembership` in team.ts)

The single persisted cache record and the network collaborators (usage,
teams and team-detail endpoints) are modelled explicitly; the fresh
lookup bundles the three successful responses.  The JWT subject is taken
as an input (its extraction from the session token is the collaborator's
concern). -/

/-- The persisted cache record (one JSON object).  A missing or empty
`startOfMonth` is represented by the empty string, which is exactly the
falsy case of the source's truthiness test. -/
structure UserCacheM where
  userId : Nat
  jwtSub : String
  isTeamMember : Bool
  teamId : Option Nat
  lastChecked : Nat
  startOfMonth : String
  deriving Repr, DecidableEq

/-- The responses a fresh lookup obtains: the usage API's start of month,
the team list (ids) and the team-detail user id. -/
structure FreshLookupM where
  startOfMonth : String
  teams : List Nat
  teamDetailUserId : Option Nat
  deriving Repr, DecidableEq

/-- What `checkTeamMembership` resolves to. -/
structure TeamCheckResultM where
  isTeamMember : Bool
  teamId : Option Nat
  userId : Option Nat
  startOfMonth : String
  deriving Repr, DecidableEq

/-- The outcome of one `checkTeamMembership` call: the resolved record,
whether the network loader was invoked, and the cache state afterwards. -/
structure MembershipOutcome where
  result : TeamCheckResultM
  loaderCalled : Bool
  newCache : Option UserCacheM
  deriving Repr, DecidableEq

/-- The fresh-lookup branch of `checkTeamMembership` (cache miss or
mismatch): derive membership from the team list, make the team-detail
call only when the team list is non-empty and the first team id is
truthy, and persist the record keyed by the current subject. -/
def checkTeamMembershipFresh (jwtSub : String) (fresh : FreshLookupM)
    (now : Nat) : MembershipOutcome :=
  let isTeamMember := decide (fresh.teams.length > 0)
  let teamId := if isTeamMember then fresh.teams.head? else none
  let teamUserId :=
    if isTeamMember && jsTruthyNat teamId then fresh.teamDetailUserId
    else none
  let cacheData : UserCacheM :=
    ⟨teamUserId.getD 0, jwtSub, isTeamMember, teamId, now,
      fresh.startOfMonth⟩
  ⟨⟨isTeamMember, teamId, teamUserId, fresh.startOfMonth⟩,
    true, some cacheData⟩

/-- `checkTeamMembership` (success path): return the cached record when it
matches the current subject and carries a truthy `startOfMonth`;
otherwise run the fresh lookup, persist it keyed by the subject and
return it. -/
def checkTeamMembership (jwtSub : String) (cache : Option UserCacheM)
    (fresh : FreshLookupM) (now : Nat) : MembershipOutcome :=
  match cache with
  | some c =>
    if c.jwtSub = jwtSub && c.startOfMonth ≠ "" then
      ⟨⟨c.isTeamMember, c.teamId, some c.userId, c.startOfMonth⟩,
        false, some c⟩
    else checkTeamMembershipFresh jwtSub fresh now
  | none => checkTeamMembershipFresh jwtSub fresh now

/-- Total network loader invocations over a sequence of
`checkTeamMembership` calls, threading the persisted cache;
`freshFor` gives the (deterministic) collaborator responses per subject. -/
def countLoaderCalls (freshFor : String → FreshLookupM) (now : Nat) :
    Option UserCacheM → List String → Nat
  | _, [] => 0
  | cache, sub :: rest =>
    let outcome := checkTeamMembership sub cache (freshFor sub) now
    (if outcome.loaderCalled then 1 else 0)
      + countLoaderCalls freshFor now outcome.newCache rest

/-! ## Concrete inputs used by witnesses and counterexamples -/

/-- A sample subscription anchor (2024-01-03). -/
def dateJan3 : SimpleDate := ⟨2024, 0, 3⟩

/-- A sample current time (2024-01-20). -/
def dateJan20 : SimpleDate := ⟨2024, 0, 20⟩

/-- A sample team-membership result: member of team 1 as team-user 7. -/
def tiTeamW : TeamInfoM := ⟨true, some 1, some 7, dateJan3⟩

/-- A sample non-member team-membership result. -/
def tiSoloW : TeamInfoM := ⟨false, none, none, dateJan3⟩

/-- A sample member-spend payload entry for team-user 7. -/
def usPayloadW : TeamMemberSpendM :=
  ⟨7, "member-seven", "m7@example.com", "member", some 250, some 3, none⟩

/-- The object `extractUserSpend` builds from `usPayloadW`. -/
def usExtractW : UserSpendExtract :=
  ⟨7, "member-seven", "m7@example.com", "member", none, 3⟩

/-- A sample team-spend payload containing team-user 7. -/
def tsW : TeamSpendResponseM := ⟨[usPayloadW], 1⟩

/-- A sample individual usage payload. -/
def usageW : CursorUsageResponseM := ⟨⟨120, some 500, 9999⟩, dateJan3⟩

/-- A sample individual usage payload with no request limit reported. -/
def usageNoLimitW : CursorUsageResponseM := ⟨⟨120, none, 9999⟩, dateJan3⟩

/-- A monthly-invoice oracle whose every fetch throws. -/
def monthFailW : Int → Int → Except Unit MonthDataM := fun _ _ => .error ()

/-- A snapshot on the individual path with an empty current month and a
mid-month payment of five dollars in the previous month. -/
def statsSoloW : CursorStatsM :=
  ⟨⟨1, 2024, ⟨[], false, 0⟩⟩, ⟨12, 2023, ⟨[], false, 5⟩⟩,
    ⟨10, some 500, dateJan3⟩, false, none, none⟩

/-- A cached record for subject "subj" whose stored `startOfMonth` is
empty. -/
def cacheEmptyAnchorW : UserCacheM := ⟨0, "subj", true, some 1, 0, ""⟩

/-- A cached record for subject "subj" with a non-empty anchor. -/
def cacheGoodW : UserCacheM := ⟨7, "subj", true, some 1, 0, "2024-01-03"⟩

/-- A sample fresh-lookup response bundle. -/
def freshW : FreshLookupM := ⟨"2024-01-03T00:00:00.000Z", [1], some 7⟩

/-! ## Helper lemmas -/

/-- The latch stays set: once `unknownModelNotificationShown` is true, no
further cycle surfaces the report. -/
theorem countNotifications_true_eq_zero :
    ∀ ds : List (List String), countNotifications true ds = 0 := by
  intro ds
  induction ds with
  | nil => rfl
  | cons d rest ih =>
    unfold countNotifications notifyStep
    simp [ih]

/-- From an unset latch, at most one cycle surfaces the report. -/
theorem countNotifications_false_le_one :
    ∀ ds : List (List String), countNotifications false ds ≤ 1 := by
  intro ds
  induction ds with
  | nil => simp [countNotifications]
  | cons d rest ih =>
    unfold countNotifications notifyStep
    by_cases h : d.length > 0
    · simp [h, countNotifications_true_eq_zero]
    · simp [h, ih]

/-- The mid-month branch of the item loop: a marker line accumulates the
absolute cent amount over 100 and pushes only the synthetic line. -/
theorem processLine_mid_month (gm efc : String → Option String) (mid : Rat)
    (d : String) (c : Int)
    (h : jsIncludes d "Mid-month usage paid" = true) :
    processLine gm efc mid ⟨d, some c⟩ =
      ([InvoiceItem.midMonthLine (mid + ((Int.natAbs c : Nat) : Rat) / 100) d],
        mid + ((Int.natAbs c : Nat) : Rat) / 100) := by
  unfold processLine
  rw [h]
  simp

/-- A thrown team-spend request makes the team branch surrender. -/
theorem teamAttempt_of_spendError (ti : TeamInfoM) (e : Unit)
    (usageR : Except Unit CursorUsageResponseM) :
    teamAttempt ti (.error e) usageR = none := by
  unfold teamAttempt
  split <;> rfl

/-- A non-member never enters the team branch. -/
theorem teamAttempt_of_notMember (ti : TeamInfoM)
    (teamSpendR : Except Unit TeamSpendResponseM)
    (usageR : Except Unit CursorUsageResponseM)
    (h : ti.isTeamMember = false) :
    teamAttempt ti teamSpendR usageR = none := by
  unfold teamAttempt
  rw [h]
  simp

/-- The fully successful team branch. -/
theorem teamAttempt_of_success (ti : TeamInfoM) (ts : TeamSpendResponseM)
    (usage : CursorUsageResponseM) (us : UserSpendExtract)
    (h1 : ti.isTeamMember = true) (h2 : jsTruthyNat ti.teamId = true)
    (h3 : jsTruthyNat ti.userId = true)
    (h4 : extractUserSpend ts (ti.userId.getD 0) = some us) :
    teamAttempt ti (.ok ts) (.ok usage) =
      some
        (⟨usage.gpt4.numRequests,
          some (jsOrNat usage.gpt4.maxRequestUsage 500), ti.startOfMonth⟩,
         us.spendCentsRead.getD 0) := by
  unfold teamAttempt
  rw [h1, h2, h3]
  simp [h4]

/-- A snapshot assembled without team spend is not team-sourced. -/
theorem useTeamSpendData_buildStats_none (now : SimpleDate)
    (teamId : Option Nat) (pr : PremiumRequestsM)
    (monthR : Int → Int → Except Unit MonthDataM) :
    useTeamSpendData (buildStats now teamId pr none monthR) = false := rfl

/-- A snapshot assembled with team spend is team-sourced. -/
theorem useTeamSpendData_buildStats_some (now : SimpleDate)
    (teamId : Option Nat) (pr : PremiumRequestsM) (c : Int)
    (monthR : Int → Int → Except Unit MonthDataM) :
    useTeamSpendData (buildStats now teamId pr (some c) monthR) = true := rfl

/-- Outside team-spend mode, `actualTotalCost` is the positive-cost sum
of the active month's items (zero when there are none, which is also the
sum of the empty list). -/
theorem actualTotalCost_of_not_team (stats : CursorStatsM)
    (h : useTeamSpendData stats = false) :
    actualTotalCost stats =
      sumPositiveCosts (activeMonthData stats).usageBasedPricing.items := by
  unfold actualTotalCost
  rw [h]
  simp only [Bool.false_eq_true, if_false]
  split
  · rfl
  · next h2 =>
    cases hi : (activeMonthData stats).usageBasedPricing.items with
    | nil => rfl
    | cons a l => rw [hi] at h2; simp at h2

/-- Per-line invariant: the running mid-month total stays non-negative
and every emitted non-usage entry (the synthetic mid-month line) carries
a non-positive dollar value. -/
theorem processLine_invariant (gm efc : String → Option String) (mid : Rat)
    (item : RawInvoiceItem) (h : 0 ≤ mid) :
    0 ≤ (processLine gm efc mid item).2 ∧
    ∀ it ∈ (processLine gm efc mid item).1,
      it.isUsage = false → it.totalDollars ≤ 0 := by
  obtain ⟨d, c⟩ := item
  cases c with
  | none => exact ⟨h, by simp [processLine]⟩
  | some cents =>
    unfold processLine
    simp only
    split
    · have hq : (0 : Rat) ≤ ((Int.natAbs cents : Nat) : Rat) / 100 := by
        positivity
      constructor
      · simpa using add_nonneg h hq
      · intro it hit _
        simp only [List.mem_singleton] at hit
        rw [hit]
        unfold InvoiceItem.totalDollars
        simp only [neg_nonpos]
        exact add_nonneg h hq
    · split
      · exact ⟨h, by simp⟩
      · split
        · exact ⟨h, by simp⟩
        · refine ⟨h, ?_⟩
          intro it hit hu
          simp only [List.mem_singleton] at hit
          rw [hit] at hu
          simp [InvoiceItem.isUsage] at hu

/-- Fold invariant for the item loop: starting from a well-formed
accumulator, the mid-month total stays non-negative and every non-usage
entry in the output has a non-positive dollar value. -/
theorem processItemsFold_invariant (gm efc : String → Option String) :
    ∀ (raw : List RawInvoiceItem) (acc : List InvoiceItem × Rat),
      0 ≤ acc.2 →
      (∀ it ∈ acc.1, it.isUsage = false → it.totalDollars ≤ 0) →
      0 ≤ (raw.foldl (invoiceFoldStep gm efc) acc).2 ∧
      ∀ it ∈ (raw.foldl (invoiceFoldStep gm efc) acc).1,
        it.isUsage = false → it.totalDollars ≤ 0 := by
  intro raw
  induction raw with
  | nil => intro acc h1 h2; exact ⟨h1, h2⟩
  | cons x rest ih =>
    intro acc h1 h2
    rw [List.foldl_cons]
    apply ih
    · exact (processLine_invariant gm efc acc.2 x h1).1
    · intro it hit
      unfold invoiceFoldStep at hit
      simp only [List.mem_append] at hit
      rcases hit with hl | hr
      · exact h2 it hl
      · exact (processLine_invariant gm efc acc.2 x h1).2 it hr

/-- Accumulator-generalised form of `sumPositiveCosts_eq_usage`. -/
theorem sumPositiveCosts_eq_usage_aux :
    ∀ (items : List InvoiceItem),
      (∀ it ∈ items, it.isUsage = false → it.totalDollars ≤ 0) →
      ∀ a : Rat,
        items.foldl
          (fun sum it =>
            if 0 < it.totalDollars then sum + it.totalDollars else sum) a =
        items.foldl
          (fun sum it =>
            if it.isUsage && decide (0 < it.totalDollars)
            then sum + it.totalDollars else sum) a := by
  intro items
  induction items with
  | nil => intro _ a; rfl
  | cons x rest ih =>
    intro h a
    have hrest : ∀ it ∈ rest, it.isUsage = false → it.totalDollars ≤ 0 :=
      fun it hit => h it (List.mem_cons_of_mem x hit)
    simp only [List.foldl_cons]
    have hstep :
        (if 0 < x.totalDollars then a + x.totalDollars else a) =
        (if x.isUsage && decide (0 < x.totalDollars)
         then a + x.totalDollars else a) := by
      by_cases hu : x.isUsage
      · by_cases hp : 0 < x.totalDollars <;> simp [hu, hp]
      · have hu0 : x.isUsage = false := by
          cases hxu : x.isUsage
          · rfl
          · exact absurd hxu hu
        have htd := h x (List.mem_cons_self x rest) hu0
        simp [hu0, not_lt.mpr htd]
    rw [hstep, ih hrest]

/-- When every non-usage entry has a non-positive dollar value, the
positive-cost sum over all entries equals the positive-cost sum over
usage entries only. -/
theorem sumPositiveCosts_eq_usage (items : List InvoiceItem)
    (h : ∀ it ∈ items, it.isUsage = false → it.totalDollars ≤ 0) :
    sumPositiveCosts items = sumPositiveUsageCosts items :=
  sumPositiveCosts_eq_usage_aux items h 0

/-- The token-based capture's request count is the value of the
description's maximal leading digit run. -/
theorem tokenBasedMatch_requestCount (s : String) (rc : Nat) (m : String)
    (h : tokenBasedMatch s = some (rc, m)) :
    rc = digitsToNat (s.toList.takeWhile Char.isDigit) := by
  unfold tokenBasedMatch at h
  dsimp only at h
  split at h
  · exact absurd h (by simp)
  · split at h
    · split at h
      · exact absurd h (by simp)
      · split at h
        · split at h
          · exact absurd h (by simp)
          · simp only [Option.some.injEq, Prod.mk.injEq] at h
            exact h.1.symm
        · exact absurd h (by simp)
    · exact absurd h (by simp)

/-- The zero-request skip of the item loop: a non-mid-month line whose
leading digit run parses to zero emits nothing and leaves the running
total unchanged, in every branch of the classifier. -/
theorem processLine_skip_of_zero (gm efc : String → Option String)
    (mid : Rat) (d : String) (c : Int)
    (hm : jsIncludes d "Mid-month usage paid" = false)
    (h0 : lineRequestCount d = some 0) :
    processLine gm efc mid ⟨d, some c⟩ = ([], mid) := by
  have hz : digitsToNat (leadingDigits d) = 0 := by
    unfold lineRequestCount at h0
    dsimp only at h0
    split at h0
    · exact absurd h0 (by simp)
    · simp only [Option.some.injEq] at h0
      exact h0
  unfold processLine
  simp only [hm, Bool.false_eq_true, if_false]
  cases htb : tokenBasedMatch d with
  | some p =>
    obtain ⟨rc, model⟩ := p
    have hls : rc = digitsToNat (d.toList.takeWhile Char.isDigit) :=
      tokenBasedMatch_requestCount d rc model htb
    have hz' : digitsToNat (d.toList.takeWhile Char.isDigit) = 0 := hz
    have hrc : rc = 0 := hls.trans hz'
    simp [htb, hrc]
  | none =>
    by_cases ho : originalMatchSucceeds d = true
    · simp [htb, ho, hz]
    · simp only [Bool.not_eq_true] at ho
      simp [htb, ho, h0]

/-- Every usage item a single line emits has a positive request count
(the source checks the count before dividing by it). -/
theorem processLine_usage_pos (gm efc : String → Option String)
    (mid : Rat) (item : RawInvoiceItem) :
    ∀ rc cents ds mn disc,
      InvoiceItem.usage rc cents ds mn disc ∈
        (processLine gm efc mid item).1 → 0 < rc := by
  obtain ⟨d, c⟩ := item
  cases c with
  | none => simp [processLine]
  | some cents0 =>
    unfold processLine
    dsimp only
    split
    · intro rc cents ds mn disc hmem
      simp at hmem
    · split
      · simp
      · split
        · simp
        · next hrc =>
          intro rc cents ds mn disc hmem
          simp only [List.mem_singleton, InvoiceItem.usage.injEq] at hmem
          omega

/-- Every usage item the whole loop emits has a positive request count. -/
theorem processItemsFold_usage_pos (gm efc : String → Option String) :
    ∀ (raw : List RawInvoiceItem) (acc : List InvoiceItem × Rat),
      (∀ rc cents ds mn disc,
        InvoiceItem.usage rc cents ds mn disc ∈ acc.1 → 0 < rc) →
      ∀ rc cents ds mn disc,
        InvoiceItem.usage rc cents ds mn disc ∈
          (raw.foldl (invoiceFoldStep gm efc) acc).1 → 0 < rc := by
  intro raw
  induction raw with
  | nil => intro acc hacc; exact hacc
  | cons x rest ih =>
    intro acc hacc
    rw [List.foldl_cons]
    apply ih
    intro rc cents ds mn disc hmem
    unfold invoiceFoldStep at hmem
    simp only [List.mem_append] at hmem
    rcases hmem with hl | hr
    · exact hacc rc cents ds mn disc hl
    · exact processLine_usage_pos gm efc acc.2 x rc cents ds mn disc hr

/-- A cached record matching the subject with a non-empty stored
`startOfMonth` is returned directly, without the loader. -/
theorem checkTeamMembership_hit (sub : String) (c : UserCacheM)
    (fresh : FreshLookupM) (now : Nat) (h1 : c.jwtSub = sub)
    (h2 : c.startOfMonth ≠ "") :
    checkTeamMembership sub (some c) fresh now =
      ⟨⟨c.isTeamMember, c.teamId, some c.userId, c.startOfMonth⟩,
        false, some c⟩ := by
  unfold checkTeamMembership
  simp [h1, h2]

/-- Whatever the starting cache, a call leaves behind a record keyed by
the current subject whose stored anchor is the one just resolved —
non-empty whenever the fresh lookup's anchor is non-empty. -/
theorem checkTeamMembership_newCache (sub : String)
    (cache : Option UserCacheM) (fresh : FreshLookupM) (now : Nat)
    (hf : fresh.startOfMonth ≠ "") :
    ∃ c', (checkTeamMembership sub cache fresh now).newCache = some c' ∧
      c'.jwtSub = sub ∧ c'.startOfMonth ≠ "" := by
  cases cache with
  | none => exact ⟨_, rfl, rfl, hf⟩
  | some c =>
    unfold checkTeamMembership
    dsimp only
    split
    · next hcond =>
      simp only [Bool.and_eq_true, decide_eq_true_eq] at hcond
      exact ⟨c, rfl, hcond.1, hcond.2⟩
    · exact ⟨_, rfl, rfl, hf⟩

/-- While the cache holds a record for the subject with a non-empty
anchor, a run of same-subject calls invokes the loader zero times. -/
theorem countLoaderCalls_zero (freshFor : String → FreshLookupM)
    (now : Nat) (s : String) :
    ∀ (subs : List String) (c : UserCacheM),
      (∀ x ∈ subs, x = s) → c.jwtSub = s → c.startOfMonth ≠ "" →
      countLoaderCalls freshFor now (some c) subs = 0 := by
  intro subs
  induction subs with
  | nil => intro c _ _ _; rfl
  | cons x rest ih =>
    intro c hall h1 h2
    have hx : x = s := hall x (List.mem_cons_self x rest)
    have h1x : c.jwtSub = x := by rw [hx]; exact h1
    unfold countLoaderCalls
    rw [checkTeamMembership_hit x c (freshFor x) now h1x h2]
    show 0 + countLoaderCalls freshFor now (some c) rest = 0
    rw [Nat.zero_add]
    exact ih c (fun y hy => hall y (List.mem_cons_of_mem x hy)) h1 h2

/-! ## Claim theorems -/

/-- Claim C1 (code divergence evidence): for subscription anchor
2024-01-31 and current time 2024-07-15 the source's `setMonth`-based
period arithmetic lands on 2024-07-01 — the day-31 anchor rolls past the
end of the 30-day month into the following month — while the clamping
behaviour the claim states yields 2024-06-30.  The billing-period start
therefore neither preserves the anchor day nor clamps to the last day of
the target month on this input. -/
theorem claim_C1_month_shift_rolls_over :
    currentPeriodStartJS ⟨2024, 0, 31⟩ ⟨2024, 6, 15⟩ = ⟨2024, 6, 1⟩ ∧
    specCurrentPeriodStart ⟨2024, 0, 31⟩ ⟨2024, 6, 15⟩ = ⟨2024, 5, 30⟩ ∧
    currentPeriodStartJS ⟨2024, 0, 31⟩ ⟨2024, 6, 15⟩ ≠
      specCurrentPeriodStart ⟨2024, 0, 31⟩ ⟨2024, 6, 15⟩ := by
  exact ⟨by decide, by decide, by decide⟩

/-- Claim C6: the raw line "142 token-based usage calls to
claude-4-sonnet, totalling: $9.94" with 994 cents parses to exactly one
usage item with request count 142, model claude-4-sonnet, cost 9.94
dollars (cents over 100) and no discount flag, for every instantiation of
the classifier oracles (the token-based branch never consults them). -/
theorem claim_C6_token_based_line_parse :
    ∀ genericModelMatch extraFastCapture : String → Option String,
    processInvoiceItems genericModelMatch extraFastCapture
        [⟨"142 token-based usage calls to claude-4-sonnet, totalling: $9.94",
          some 994⟩] =
      ([InvoiceItem.usage 142 994
          "142 token-based usage calls to claude-4-sonnet, totalling: $9.94"
          "claude-4-sonnet" false], 0) ∧
    (InvoiceItem.usage 142 994
        "142 token-based usage calls to claude-4-sonnet, totalling: $9.94"
        "claude-4-sonnet" false).totalDollars = (994 : Rat) / 100 := by
  intro gm efc
  exact ⟨rfl, by norm_num [InvoiceItem.totalDollars]⟩

/-- Claim C5: a raw line whose description carries the mid-month marker
adds the absolute cent amount over 100 to the running mid-month total and
emits only the synthetic running-total line, never a parsed usage item;
on the concrete line with -500 cents the contribution is exactly five
dollars. -/
theorem claim_C5_mid_month_line :
    (∀ (gm efc : String → Option String) (mid : Rat) (d : String) (c : Int),
      jsIncludes d "Mid-month usage paid" = true →
      processLine gm efc mid ⟨d, some c⟩ =
        ([InvoiceItem.midMonthLine (mid + (Int.natAbs c : Rat) / 100) d],
          mid + (Int.natAbs c : Rat) / 100)) ∧
    (∀ gm efc : String → Option String,
      processInvoiceItems gm efc [⟨"Mid-month usage paid", some (-500)⟩] =
        ([InvoiceItem.midMonthLine 5 "Mid-month usage paid"], 5) ∧
      ∀ it ∈ (processInvoiceItems gm efc
          [⟨"Mid-month usage paid", some (-500)⟩]).1, it.isUsage = false) := by
  refine ⟨processLine_mid_month, ?_⟩
  intro gm efc
  have h1 := processLine_mid_month gm efc 0 "Mid-month usage paid" (-500)
    (by decide)
  have habs : (Int.natAbs (-500) : Nat) = 500 := rfl
  have hval : (0 : Rat) + ((Int.natAbs (-500) : Nat) : Rat) / 100 = 5 := by
    rw [habs]
    norm_num
  rw [hval] at h1
  have heq : processInvoiceItems gm efc
      [⟨"Mid-month usage paid", some (-500)⟩] =
      ([InvoiceItem.midMonthLine 5 "Mid-month usage paid"], 5) := by
    unfold processInvoiceItems
    simp only [List.foldl_cons, List.foldl_nil]
    unfold invoiceFoldStep
    rw [h1]
    simp
  refine ⟨heq, ?_⟩
  intro it hit
  rw [heq] at hit
  simp only [List.mem_singleton] at hit
  rw [hit]
  rfl

/-- Claim C5 witness: the general statement applied to the concrete line
of the claim, with the marker hypothesis discharged by evaluation. -/
theorem claim_C5_mid_month_line_witness :
    processLine (fun _ => none) (fun _ => none) 0
        ⟨"Mid-month usage paid", some (-500)⟩ =
      ([InvoiceItem.midMonthLine
          (0 + ((Int.natAbs (-500) : Nat) : Rat) / 100) "Mid-month usage paid"],
        0 + ((Int.natAbs (-500) : Nat) : Rat) / 100) :=
  claim_C5_mid_month_line.1 (fun _ => none) (fun _ => none) 0
    "Mid-month usage paid" (-500) (by decide)

/-- Claim C8: the unknown-model accumulator records only one entry for
the phrases glorbo-7 then glorbo-7-mini (case-insensitive containment
de-duplication), and over any sequence of refresh cycles starting from a
fresh process the aggregate report is surfaced at most once. -/
theorem claim_C8_dedup_and_one_shot_latch :
    (recordUnknownModel (recordUnknownModel [] "glorbo-7") "glorbo-7-mini")
        = ["glorbo-7"] ∧
    (recordUnknownModel (recordUnknownModel [] "glorbo-7") "glorbo-7-mini").length
        = 1 ∧
    ∀ detectedPerCycle : List (List String),
      countNotifications false detectedPerCycle ≤ 1 := by
  exact ⟨by decide, by decide, countNotifications_false_le_one⟩

/-- Claim C2 (counterexample): a thrown team-membership lookup is fatal —
`fetchCursorStats` propagates the error and produces no snapshot, so the
claim that a team-membership failure still yields a snapshot with
`isTeamSourced = false` is false on this input. -/
theorem claim_C2_membership_failure_is_fatal :
    fetchCursorStats dateJan20 (.error ()) (.ok tsW) (.ok usageW)
      monthFailW = .error () := rfl

/-- Claim C2 (amended): when the team-spend lookup throws, the snapshot
computation still completes with `isTeamSourced = false` and its cost
total is the positive-cost sum of the active period's items; and on any
parser output that sum counts exactly the positive-cost parsed usage
items (the synthetic mid-month lines never contribute).  A
team-membership failure, by contrast, is fatal (see the counterexample
theorem). -/
theorem claim_C2_team_spend_failure_degrades :
    (∀ (now : SimpleDate) (ti : TeamInfoM) (e : Unit)
       (usage : CursorUsageResponseM)
       (monthR : Int → Int → Except Unit MonthDataM),
     ∃ stats : CursorStatsM,
       fetchCursorStats now (.ok ti) (.error e) (.ok usage) monthR
         = .ok stats ∧
       stats.isTeamSpendData = false ∧
       actualTotalCost stats =
         sumPositiveCosts (activeMonthData stats).usageBasedPricing.items) ∧
    (∀ (gm efc : String → Option String) (raw : List RawInvoiceItem),
      sumPositiveCosts (processInvoiceItems gm efc raw).1 =
        sumPositiveUsageCosts (processInvoiceItems gm efc raw).1) := by
  constructor
  · intro now ti e usage monthR
    refine ⟨buildStats now ti.teamId
      ⟨usage.gpt4.numRequests, usage.gpt4.maxRequestUsage,
        usage.startOfMonth⟩ none monthR, ?_, rfl, ?_⟩
    · simp only [fetchCursorStats, teamAttempt_of_spendError]
    · exact actualTotalCost_of_not_team _
        (useTeamSpendData_buildStats_none now ti.teamId _ monthR)
  · intro gm efc raw
    apply sumPositiveCosts_eq_usage
    exact (processItemsFold_invariant gm efc raw ([], 0) (le_refl 0)
      (by simp)).2

/-- Claim C3: with team membership resolved (truthy team and user ids),
the team-spend payload obtained and containing the resolved team-user,
and the individual usage fetch succeeding, the snapshot is team-sourced,
its authoritative cost is the snapshot's `teamSpendCents` over 100, and
both premium-request counters come from the individual payload's primary
model entry (the limit via the `|| 500` default), not from the
team-spend payload.  (At runtime the stored `teamSpendCents` is always
zero, because `extractUserSpend` returns an object without a
`spendCents` property and the branch reads `userSpend.spendCents || 0`;
the snapshot-level relation the claim states holds regardless.) -/
theorem claim_C3_team_sourced_snapshot :
    ∀ (now : SimpleDate) (ti : TeamInfoM) (ts : TeamSpendResponseM)
      (usage : CursorUsageResponseM)
      (monthR : Int → Int → Except Unit MonthDataM) (us : UserSpendExtract),
    ti.isTeamMember = true →
    jsTruthyNat ti.teamId = true →
    jsTruthyNat ti.userId = true →
    extractUserSpend ts (ti.userId.getD 0) = some us →
    ∃ stats : CursorStatsM,
      fetchCursorStats now (.ok ti) (.ok ts) (.ok usage) monthR
        = .ok stats ∧
      stats.isTeamSpendData = true ∧
      stats.teamSpendCents.isSome = true ∧
      actualTotalCost stats =
        ((stats.teamSpendCents.getD 0 : Int) : Rat) / 100 ∧
      stats.premiumRequests.current = usage.gpt4.numRequests ∧
      stats.premiumRequests.limit =
        some (jsOrNat usage.gpt4.maxRequestUsage 500) ∧
      stats.premiumRequests.startOfMonth = ti.startOfMonth := by
  intro now ti ts usage monthR us h1 h2 h3 h4
  refine ⟨buildStats now ti.teamId
    ⟨usage.gpt4.numRequests, some (jsOrNat usage.gpt4.maxRequestUsage 500),
      ti.startOfMonth⟩ (some (us.spendCentsRead.getD 0)) monthR,
    ?_, rfl, rfl, rfl, rfl, rfl, rfl⟩
  simp only [fetchCursorStats, teamAttempt_of_success ti ts usage us h1 h2 h3 h4]

/-- Claim C3 witness: the theorem applied to a concrete member of team 1
with user id 7 and an individual payload with 120 requests and
limit 500. -/
theorem claim_C3_team_sourced_snapshot_witness :
    ∃ stats : CursorStatsM,
      fetchCursorStats dateJan20 (.ok tiTeamW) (.ok tsW) (.ok usageW)
        monthFailW = .ok stats ∧
      stats.isTeamSpendData = true ∧
      stats.teamSpendCents.isSome = true ∧
      actualTotalCost stats =
        ((stats.teamSpendCents.getD 0 : Int) : Rat) / 100 ∧
      stats.premiumRequests.current = usageW.gpt4.numRequests ∧
      stats.premiumRequests.limit =
        some (jsOrNat usageW.gpt4.maxRequestUsage 500) ∧
      stats.premiumRequests.startOfMonth = tiTeamW.startOfMonth :=
  claim_C3_team_sourced_snapshot dateJan20 tiTeamW tsW usageW monthFailW
    usExtractW rfl (by decide) (by decide) (by decide)

/-- Claim C4: the unpaid amount is never negative, and outside team-spend
mode it is exactly the total cost minus the active month's mid-month
payment floored at zero — in particular exactly zero whenever the total
cost is below the mid-month payment. -/
theorem claim_C4_unpaid_balance :
    ∀ stats : CursorStatsM,
      0 ≤ unpaidAmount stats ∧
      (useTeamSpendData stats = false →
        unpaidAmount stats =
          max 0 (actualTotalCost stats -
            (activeMonthData stats).usageBasedPricing.midMonthPayment) ∧
        (actualTotalCost stats <
            (activeMonthData stats).usageBasedPricing.midMonthPayment →
          unpaidAmount stats = 0)) := by
  intro stats
  constructor
  · unfold unpaidAmount
    split
    · exact le_refl 0
    · exact le_max_left 0 _
  · intro h
    have he : unpaidAmount stats =
        max 0 (actualTotalCost stats -
          (activeMonthData stats).usageBasedPricing.midMonthPayment) := by
      unfold unpaidAmount
      rw [h]
      simp
    refine ⟨he, ?_⟩
    intro hlt
    rw [he]
    have hle : actualTotalCost stats -
        (activeMonthData stats).usageBasedPricing.midMonthPayment ≤ 0 := by
      linarith
    exact max_eq_left hle

/-- Claim C4 witness: on a concrete individual-path snapshot whose active
month carries a five-dollar mid-month payment and no items, the unpaid
amount is exactly zero. -/
theorem claim_C4_unpaid_balance_witness :
    unpaidAmount statsSoloW = 0 := by
  have h := (claim_C4_unpaid_balance statsSoloW).2 rfl
  apply h.2
  show actualTotalCost statsSoloW < 5
  have : actualTotalCost statsSoloW = 0 := rfl
  rw [this]
  norm_num

/-- Claim C10: when the individual payload's primary entry reports a
missing or zero `maxRequestUsage`, the team-sourced path defaults the
premium-request limit to 500, while the individual fallback path copies
`maxRequestUsage` verbatim — so the same payload yields different limits
on the two paths. -/
theorem claim_C10_limit_default_asymmetry :
    ∀ (now : SimpleDate) (ti ti2 : TeamInfoM) (ts : TeamSpendResponseM)
      (usage : CursorUsageResponseM)
      (monthR : Int → Int → Except Unit MonthDataM) (us : UserSpendExtract),
    ti.isTeamMember = true →
    jsTruthyNat ti.teamId = true →
    jsTruthyNat ti.userId = true →
    extractUserSpend ts (ti.userId.getD 0) = some us →
    (usage.gpt4.maxRequestUsage = none ∨
      usage.gpt4.maxRequestUsage = some 0) →
    ti2.isTeamMember = false →
    (∃ stats : CursorStatsM,
      fetchCursorStats now (.ok ti) (.ok ts) (.ok usage) monthR
        = .ok stats ∧
      stats.premiumRequests.limit = some 500) ∧
    (∃ stats2 : CursorStatsM,
      fetchCursorStats now (.ok ti2) (.ok ts) (.ok usage) monthR
        = .ok stats2 ∧
      stats2.premiumRequests.limit = usage.gpt4.maxRequestUsage) := by
  intro now ti ti2 ts usage monthR us h1 h2 h3 h4 h5 h6
  constructor
  · refine ⟨buildStats now ti.teamId
      ⟨usage.gpt4.numRequests, some (jsOrNat usage.gpt4.maxRequestUsage 500),
        ti.startOfMonth⟩ (some (us.spendCentsRead.getD 0)) monthR, ?_, ?_⟩
    · simp only [fetchCursorStats,
        teamAttempt_of_success ti ts usage us h1 h2 h3 h4]
    · show some (jsOrNat usage.gpt4.maxRequestUsage 500) = some 500
      rcases h5 with h | h <;> rw [h] <;> rfl
  · refine ⟨buildStats now ti2.teamId
      ⟨usage.gpt4.numRequests, usage.gpt4.maxRequestUsage,
        usage.startOfMonth⟩ none monthR, ?_, rfl⟩
    simp only [fetchCursorStats,
      teamAttempt_of_notMember ti2 (.ok ts) (.ok usage) h6]

/-- Claim C10 witness: with a concrete payload reporting no
`maxRequestUsage`, the team path yields limit 500 and the individual
fallback yields no limit. -/
theorem claim_C10_limit_default_asymmetry_witness :
    (∃ stats : CursorStatsM,
      fetchCursorStats dateJan20 (.ok tiTeamW) (.ok tsW) (.ok usageNoLimitW)
        monthFailW = .ok stats ∧
      stats.premiumRequests.limit = some 500) ∧
    (∃ stats2 : CursorStatsM,
      fetchCursorStats dateJan20 (.ok tiSoloW) (.ok tsW) (.ok usageNoLimitW)
        monthFailW = .ok stats2 ∧
      stats2.premiumRequests.limit = usageNoLimitW.gpt4.maxRequestUsage) :=
  claim_C10_limit_default_asymmetry dateJan20 tiTeamW tiSoloW tsW
    usageNoLimitW monthFailW usExtractW rfl (by decide) (by decide)
    (by decide)
    (Or.inl rfl) rfl

/-- Claim C9: a non-mid-month raw line whose parsed request count is zero
is skipped — it emits no entry and leaves the running total unchanged;
inserting such a line anywhere in a payload leaves the loop's entire
output unchanged; and every emitted usage item has a positive request
count, so the per-request division `cents / requestCount` never runs with
a zero divisor. -/
theorem claim_C9_zero_request_count_skipped :
    (∀ (gm efc : String → Option String) (mid : Rat) (d : String) (c : Int),
      jsIncludes d "Mid-month usage paid" = false →
      lineRequestCount d = some 0 →
      processLine gm efc mid ⟨d, some c⟩ = ([], mid)) ∧
    (∀ (gm efc : String → Option String)
       (pre post : List RawInvoiceItem) (d : String) (c : Int),
      jsIncludes d "Mid-month usage paid" = false →
      lineRequestCount d = some 0 →
      processInvoiceItems gm efc (pre ++ ⟨d, some c⟩ :: post) =
        processInvoiceItems gm efc (pre ++ post)) ∧
    (∀ (gm efc : String → Option String) (raw : List RawInvoiceItem)
       (rc : Nat) (cents : Int) (ds mn : String) (disc : Bool),
      InvoiceItem.usage rc cents ds mn disc ∈
        (processInvoiceItems gm efc raw).1 → 0 < rc) := by
  refine ⟨processLine_skip_of_zero, ?_, ?_⟩
  · intro gm efc pre post d c hm h0
    unfold processInvoiceItems
    rw [List.foldl_append, List.foldl_append, List.foldl_cons]
    congr 1
    unfold invoiceFoldStep
    rw [processLine_skip_of_zero gm efc _ d c hm h0]
    simp
  · intro gm efc raw rc cents ds mn disc hmem
    exact processItemsFold_usage_pos gm efc raw ([], 0)
      (by simp) rc cents ds mn disc hmem

/-- Claim C9 witness: the skip applied to a concrete zero-count line, the
insertion invariance on a concrete two-line payload, and the positivity
of the request count of a concretely emitted usage item. -/
theorem claim_C9_zero_request_count_skipped_witness :
    processLine (fun _ => none) (fun _ => none) 0
        ⟨"0 requests of glorbo", some 100⟩ = ([], 0) ∧
    processInvoiceItems (fun _ => none) (fun _ => none)
        ([] ++ ⟨"0 requests of glorbo", some 100⟩ ::
          [⟨"5 glorbo requests", some 100⟩]) =
      processInvoiceItems (fun _ => none) (fun _ => none)
        ([] ++ [⟨"5 glorbo requests", some 100⟩]) ∧
    (0 : Nat) < 5 :=
  ⟨claim_C9_zero_request_count_skipped.1 (fun _ => none) (fun _ => none) 0
      "0 requests of glorbo" 100 (by decide) (by decide),
   claim_C9_zero_request_count_skipped.2.1 (fun _ => none) (fun _ => none)
      [] [⟨"5 glorbo requests", some 100⟩] "0 requests of glorbo" 100
      (by decide) (by decide),
   claim_C9_zero_request_count_skipped.2.2 (fun _ => none) (fun _ => none)
      [⟨"5 glorbo requests", some 100⟩] 5 100 "5 glorbo requests"
      unknownModelSentinel false (by decide)⟩

/-- Claim C7 (counterexample): a cached record whose subject matches the
current session subject but whose stored `startOfMonth` is empty is not
returned directly — the loader is invoked — so matching subjectId alone
does not suffice, contrary to the claim. -/
theorem claim_C7_counterexample_empty_anchor :
    cacheEmptyAnchorW.jwtSub = "subj" ∧
    (checkTeamMembership "subj" (some cacheEmptyAnchorW) freshW 5).loaderCalled
      = true :=
  ⟨rfl, by decide⟩

/-- Claim C7 (amended): a cached record matching the subject *and holding
a non-empty anchor* is returned directly without the loader; otherwise
the loader runs exactly once for the call and the returned record is
persisted keyed by the subject; and a run of calls for one subject makes
at most one fresh lookup from any starting cache, provided the fresh
lookup resolves a non-empty anchor. -/
theorem claim_C7_membership_cache :
    (∀ (sub : String) (c : UserCacheM) (fresh : FreshLookupM) (now : Nat),
      c.jwtSub = sub → c.startOfMonth ≠ "" →
      checkTeamMembership sub (some c) fresh now =
        ⟨⟨c.isTeamMember, c.teamId, some c.userId, c.startOfMonth⟩,
          false, some c⟩) ∧
    (∀ (sub : String) (cache : Option UserCacheM) (fresh : FreshLookupM)
       (now : Nat),
      (∀ c, cache = some c → ¬(c.jwtSub = sub ∧ c.startOfMonth ≠ "")) →
      (checkTeamMembership sub cache fresh now).loaderCalled = true ∧
      ∃ c', (checkTeamMembership sub cache fresh now).newCache = some c' ∧
        c'.jwtSub = sub ∧ c'.startOfMonth = fresh.startOfMonth) ∧
    (∀ (freshFor : String → FreshLookupM) (now : Nat) (s : String)
       (subs : List String) (cache0 : Option UserCacheM),
      (∀ x ∈ subs, x = s) → (freshFor s).startOfMonth ≠ "" →
      countLoaderCalls freshFor now cache0 subs ≤ 1) := by
  refine ⟨checkTeamMembership_hit, ?_, ?_⟩
  · intro sub cache fresh now h
    have hred : checkTeamMembership sub cache fresh now =
        checkTeamMembershipFresh sub fresh now := by
      cases cache with
      | none => rfl
      | some c =>
        unfold checkTeamMembership
        dsimp only
        split
        · next hcond =>
          simp only [Bool.and_eq_true, decide_eq_true_eq] at hcond
          exact absurd hcond (h c rfl)
        · rfl
    rw [hred]
    exact ⟨rfl, ⟨_, rfl, rfl, rfl⟩⟩
  · intro freshFor now s subs cache0 hall hf
    cases subs with
    | nil => simp [countLoaderCalls]
    | cons x rest =>
      have hx : x = s := hall x (List.mem_cons_self x rest)
      subst hx
      have hrest : ∀ y ∈ rest, y = x :=
        fun y hy => hall y (List.mem_cons_of_mem x hy)
      unfold countLoaderCalls
      dsimp only
      obtain ⟨c', hc', hsub', hsm'⟩ :=
        checkTeamMembership_newCache x cache0 (freshFor x) now hf
      rw [hc',
        countLoaderCalls_zero freshFor now x rest c' hrest hsub' hsm']
      cases (checkTeamMembership x cache0 (freshFor x) now).loaderCalled <;>
        simp

/-- Claim C7 witness: the direct cache hit on a concrete matching record,
the persist-on-miss behaviour from an empty cache, and the single fresh
lookup over two consecutive calls for the same subject. -/
theorem claim_C7_membership_cache_witness :
    checkTeamMembership "subj" (some cacheGoodW) freshW 5 =
      ⟨⟨cacheGoodW.isTeamMember, cacheGoodW.teamId, some cacheGoodW.userId,
        cacheGoodW.startOfMonth⟩, false, some cacheGoodW⟩ ∧
    ((checkTeamMembership "subj" none freshW 5).loaderCalled = true ∧
      ∃ c', (checkTeamMembership "subj" none freshW 5).newCache = some c' ∧
        c'.jwtSub = "subj" ∧ c'.startOfMonth = freshW.startOfMonth) ∧
    countLoaderCalls (fun _ => freshW) 5 none ["subj", "subj"] ≤ 1 :=
  ⟨claim_C7_membership_cache.1 "subj" cacheGoodW freshW 5 rfl (by decide),
   claim_C7_membership_cache.2.1 "subj" none freshW 5
     (fun c h => Option.noConfusion h),
   claim_C7_membership_cache.2.2 (fun _ => freshW) 5 "subj"
     ["subj", "subj"] none (by simp) (by decide)⟩

end CursorStats
